import Mathlib

/-!
A shallow embedding of the earthquake data pipeline:

* `process_earthquake_data_starter.py` — fetch a GeoJSON feed, build one
  record per feature, write a dated CSV batch file (the Feed Client and
  Batch Writer);
* `load_csv_starter.py` — `delete_old_records` then `load_csv_to_postgres`
  replace the rows of `public.earthquake` belonging to one batch file
  (the Staging Loader);
* `transform_earthquake_starter.py` — `delete_old_records` then
  `transform_earthquake` replace the rows of `raw.stage_earthquake` whose
  `dt` lies in a date window (the Window Transformer).

The relational store is modelled as two row lists.  The numeric feed
fields (`magnitude`, `longitude`, `latitude`, `depth`) are only carried
verbatim, never computed with, so an `Int` stand-in represents their
values.  Dates are days since 1970-01-01 and timestamps are seconds
since the epoch, both at UTC (the embedding fixes the Postgres session
time zone to UTC, which the spec assumes for `cast(to_timestamp(..) AS
date)`).  Every Python step that runs SQL ends with `conn.commit()`, so
each step is its own durably committed transition; the `commit_states`
lists record the sequence of states the store rests in between commits.
-/

namespace Pipeline

/-- A row of the raw staging table `public.earthquake`; its columns are the
batch file's columns `time, place, magnitude, longitude, latitude, depth,
file_name` in order, with `file_name` holding the batch file path used to
scope deletes on reload. -/
structure RawRow where
  time : Int
  place : String
  magnitude : Int
  longitude : Int
  latitude : Int
  depth : Int
  file_name : String
  deriving DecidableEq

/-- A row of the derived fact table `raw.stage_earthquake`:
`ts, dt, place, magnitude, longitude, latitude, depth`.  `ts` is seconds
since the epoch, `dt` days since 1970-01-01 (the UTC calendar date). -/
structure FactRow where
  ts : Int
  dt : Int
  place : String
  magnitude : Int
  longitude : Int
  latitude : Int
  depth : Int
  deriving DecidableEq

/-- The relational store: the raw table `public.earthquake` and the fact
table `raw.stage_earthquake`. -/
structure Store where
  earthquake : List RawRow
  stage_earthquake : List FactRow
  deriving DecidableEq

/-- A CSV batch file: the header line (as its list of column names; an
empty list models a blank header line) and the parsed data rows.  The raw
table's columns coincide with the batch file's columns in order, so a data
row is represented directly as a `RawRow`. -/
structure CsvFile where
  header : List String
  rows : List RawRow
  deriving DecidableEq

/-- The `properties` object of one GeoJSON feature; a field the feed item
does not carry is `none` (Python dict access then raises `KeyError`). -/
structure Properties where
  time : Option Int
  place : Option String
  mag : Option Int
  deriving DecidableEq

/-- The `geometry` object of one GeoJSON feature. -/
structure Geometry where
  coordinates : List Int
  deriving DecidableEq

/-- One element of the feed response's `features` array. -/
structure Feature where
  properties : Properties
  geometry : Geometry
  deriving DecidableEq

/-- Python dict subscript: `d[key]` returns the value or raises `KeyError`. -/
def getKey {α : Type} (key : String) : Option α → Except String α
  | some v => .ok v
  | none => .error ("KeyError: " ++ key)

/-- Python list subscript: `l[i]` returns the element or raises `IndexError`. -/
def getIndex {α : Type} (l : List α) (i : Nat) : Except String α :=
  match l.get? i with
  | some v => .ok v
  | none => .error "IndexError: list index out of range"

/-- The body of the `for feature in features` loop of
`process_earthquake_data`: build one record dict from `properties` and
`geometry`, evaluating the accesses in source order
(`time`, `place`, `mag`, `coordinates[0]`, `[1]`, `[2]`); a missing key or
index raises. -/
def extract_feature (filename : String) (feature : Feature) :
    Except String RawRow := do
  let t ← getKey "time" feature.properties.time
  let p ← getKey "place" feature.properties.place
  let m ← getKey "mag" feature.properties.mag
  let lon ← getIndex feature.geometry.coordinates 0
  let lat ← getIndex feature.geometry.coordinates 1
  let dep ← getIndex feature.geometry.coordinates 2
  return { time := t, place := p, magnitude := m, longitude := lon,
           latitude := lat, depth := dep, file_name := filename }

/-- The extraction loop of `process_earthquake_data`: records accumulate in
feed order and the first failing feature aborts the whole call. -/
def build_earthquakes (filename : String) :
    List Feature → Except String (List RawRow)
  | [] => .ok []
  | feature :: rest => do
    let r ← extract_feature filename feature
    let others ← build_earthquakes filename rest
    return r :: others

/-- The fixed column order of the batch file and of `public.earthquake`. -/
def earthquake_header : List String :=
  ["time", "place", "magnitude", "longitude", "latitude", "depth", "file_name"]

/-- Models `pd.DataFrame(earthquakes).to_csv(filename, index=False)` (after
the `os.remove` of any prior file, so the write is a full replace).  For a
nonempty record list the frame's columns are the dict keys in insertion
order, giving the standard header line and one data row per record.
`pd.DataFrame([])` has no columns at all, so `to_csv` writes a single
blank header line and no data rows. -/
def df_to_csv : List RawRow → CsvFile
  | [] => { header := [], rows := [] }
  | earthquakes => { header := earthquake_header, rows := earthquakes }

/-- What a run of `process_earthquake_data` leaves behind when it returns
without raising: either the batch file it wrote, or (for a non-200 status)
nothing but a printed failure message. -/
inductive ProcessOutcome where
  | fileWritten : CsvFile → ProcessOutcome
  | printedFailure : Nat → ProcessOutcome
  deriving DecidableEq

/-- `process_earthquake_data` of `process_earthquake_data_starter.py`,
parameterized by the HTTP response (`status`, `features`) and the dated
file path it computes.  On status 200 it extracts every feature (a raising
feature propagates) and writes the batch file; otherwise it prints
`Failed to retrive data` and returns normally. -/
def process_earthquake_data (status : Nat) (features : List Feature)
    (filename : String) : Except String ProcessOutcome :=
  if status == 200 then do
    let earthquakes ← build_earthquakes filename features
    return .fileWritten (df_to_csv earthquakes)
  else
    return .printedFailure status

end Pipeline

namespace Pipeline.LoadCsv

/-- `delete_old_records` of `load_csv_starter.py`:
`DELETE FROM earthquake WHERE filename=%s` with the CSV file path, then
`conn.commit()`. -/
def delete_old_records (st : Store) (csv_file_path : String) : Store :=
  { st with earthquake :=
      st.earthquake.filter (fun r => !(r.file_name == csv_file_path)) }

/-- `load_csv_to_postgres` of `load_csv_starter.py`:
`COPY earthquake FROM STDIN DELIMITER ',' CSV HEADER` streaming the file —
the header line is skipped and every data row is inserted — then
`conn.commit()`. -/
def load_csv_to_postgres (st : Store) (file : CsvFile) : Store :=
  { st with earthquake := st.earthquake ++ file.rows }

/-- The try-block of `main` in `load_csv_starter.py`: delete the path's old
rows, then bulk-insert the file at that path. -/
def main_run (st : Store) (csv_file_path : String) (file : CsvFile) : Store :=
  load_csv_to_postgres (delete_old_records st csv_file_path) file

/-- The successive durably committed states of one `main` run: each of the
two steps ends in its own `conn.commit()`, so after the delete's commit the
store rests at the middle state until (and unless) the copy commits. -/
def commit_states (st : Store) (csv_file_path : String) (file : CsvFile) :
    List Store :=
  [st, delete_old_records st csv_file_path, main_run st csv_file_path file]

end Pipeline.LoadCsv

namespace Pipeline

/-- Postgres `time / 1000` for an `integer` column: integer division
truncating toward zero. -/
def to_timestamp_secs (time : Int) : Int := Int.tdiv time 1000

/-- `cast(to_timestamp(s) AS date)` with the session time zone fixed at
UTC: the civil day containing the instant, i.e. the floor of seconds over
86400, in days since 1970-01-01. -/
def cast_ts_to_date (s : Int) : Int := Int.fdiv s 86400

/-- 0-based index of the first occurrence of `needle` in `hay`, scanning
left to right. -/
def find_sub (needle : List Char) : List Char → Option Nat
  | [] => none
  | c :: t =>
    if needle.isPrefixOf (c :: t) then some 0
    else (find_sub needle t).map (· + 1)

/-- Postgres `POSITION(needle IN hay)`: the 1-based index of the first
occurrence, or 0 when `needle` does not occur. -/
def position (needle hay : List Char) : Nat :=
  match find_sub needle hay with
  | some i => i + 1
  | none => 0

/-- Postgres `SUBSTRING(s FROM n)` (without `FOR`): the characters from
1-based index `max n 1` to the end. -/
def substring_from (l : List Char) (n : Nat) : List Char := l.drop (n - 1)

/-- Postgres `TRIM(s)`, i.e. `TRIM(BOTH ' ' FROM s)`: strip leading and
trailing space characters. -/
def trim (l : List Char) : List Char :=
  ((l.dropWhile (fun c => c == ' ')).reverse.dropWhile (fun c => c == ' ')).reverse

/-- The place-cleaning expression of the transform's SELECT:
`TRIM(SUBSTRING(place FROM POSITION('of ' IN place) + 3))`. -/
def clean_place (place : String) : String :=
  String.mk (trim (substring_from place.data (position "of ".data place.data + 3)))

/-- One row of the transform's SELECT list: how a `RawRow` of
`public.earthquake` becomes a `FactRow` of `raw.stage_earthquake`. -/
def derive_row (r : RawRow) : FactRow :=
  { ts := to_timestamp_secs r.time
    dt := cast_ts_to_date (to_timestamp_secs r.time)
    place := clean_place r.place
    magnitude := r.magnitude
    longitude := r.longitude
    latitude := r.latitude
    depth := r.depth }

/-- SQL `lo BETWEEN x AND hi` on dates (no NULLs in the model). -/
def between (lo x hi : Int) : Bool := decide (lo ≤ x) && decide (x ≤ hi)

end Pipeline

namespace Pipeline.Transform

/-- `delete_old_records` of `transform_earthquake_starter.py`:
`DELETE FROM raw.stage_earthquake WHERE dt BETWEEN %s AND %s`, then
`conn.commit()`. -/
def delete_old_records (st : Store) (start_date end_date : Int) : Store :=
  { st with stage_earthquake :=
      st.stage_earthquake.filter (fun fr => !(between start_date fr.dt end_date)) }

/-- `transform_earthquake` of `transform_earthquake_starter.py`: INSERT
INTO `raw.stage_earthquake` the derived image of every `public.earthquake`
row whose computed date lies in the window, then `conn.commit()`. -/
def transform_earthquake (st : Store) (start_date end_date : Int) : Store :=
  { st with stage_earthquake := st.stage_earthquake ++
      ((st.earthquake.filter (fun r =>
          between start_date (cast_ts_to_date (to_timestamp_secs r.time)) end_date)).map
        derive_row) }

/-- The try-block of `main` in `transform_earthquake_starter.py`: delete
the window's fact rows, then insert the freshly derived ones. -/
def main_run (st : Store) (start_date end_date : Int) : Store :=
  transform_earthquake (delete_old_records st start_date end_date) start_date end_date

/-- The successive durably committed states of one `main` run: the delete
and the insert each end in their own `conn.commit()`. -/
def commit_states (st : Store) (start_date end_date : Int) : List Store :=
  [st, delete_old_records st start_date end_date, main_run st start_date end_date]

end Pipeline.Transform

namespace Pipeline

/-- Number of raw-table rows carrying the given batch file path. -/
def raw_count_for_key (st : Store) (key : String) : Nat :=
  (st.earthquake.filter (fun r => r.file_name == key)).length

/-- Number of fact-table rows whose `dt` lies in the window. -/
def fact_count_in_window (st : Store) (s e : Int) : Nat :=
  (st.stage_earthquake.filter (fun fr => between s fr.dt e)).length

/-- Number of raw-table rows whose derived date lies in the window. -/
def raw_count_in_window (st : Store) (s e : Int) : Nat :=
  (st.earthquake.filter (fun r =>
    between s (cast_ts_to_date (to_timestamp_secs r.time)) e)).length

/-- Civil (proleptic Gregorian) date `(year, month, day)` of a count of
days since 1970-01-01, by the standard era-based conversion; used to read
a `dt` value back as a calendar date. -/
def civil_from_days (z0 : Int) : Int × Nat × Nat :=
  let z : Int := z0 + 719468
  let era : Int := Int.fdiv z 146097
  let doe : Nat := (z - era * 146097).toNat
  let yoe : Nat := (doe - doe / 1460 + doe / 36524 - doe / 146096) / 365
  let y : Int := era * 400 + yoe
  let doy : Nat := doe - (365 * yoe + yoe / 4 - yoe / 100)
  let mp : Nat := (5 * doy + 2) / 153
  let d : Nat := doy - (153 * mp + 2) / 5 + 1
  let m : Nat := if mp < 10 then mp + 3 else mp - 9
  (if m ≤ 2 then y + 1 else y, m, d)

end Pipeline

namespace Pipeline

/-- Filtering a list twice with one predicate is the same as filtering once. -/
theorem filter_filter_self {α : Type} (p : α → Bool) (l : List α) :
    (l.filter p).filter p = l.filter p := by
  induction l with
  | nil => rfl
  | cons a t ih => cases h : p a <;> simp [List.filter_cons, h, ih]

/-- No element kept by a delete (predicate negated) satisfies the predicate. -/
theorem filter_of_filter_not {α : Type} (p : α → Bool) (l : List α) :
    (l.filter (fun a => !(p a))).filter p = [] := by
  induction l with
  | nil => rfl
  | cons a t ih => cases h : p a <;> simp [List.filter_cons, h, ih]

/-- Rows that all carry the batch key are wiped out by that key's delete. -/
theorem filter_not_key_eq_nil {key : String} {rows : List RawRow}
    (h : ∀ r ∈ rows, r.file_name = key) :
    rows.filter (fun r => !(r.file_name == key)) = [] := by
  rw [List.filter_eq_nil_iff]
  intro r hr
  simp [h r hr]

/-- Rows that all carry the batch key all survive a filter for that key. -/
theorem filter_key_eq_self {key : String} {rows : List RawRow}
    (h : ∀ r ∈ rows, r.file_name = key) :
    rows.filter (fun r => r.file_name == key) = rows := by
  rw [List.filter_eq_self]
  intro r hr
  simp [h r hr]

/-- Claim C10: every window transform call leaves the raw table
`public.earthquake` unchanged — the delete step touches only
`raw.stage_earthquake`, and the insert step writes only to
`raw.stage_earthquake` while merely reading the raw table. -/
theorem transform_reads_only_raw (st : Store) (s e : Int) :
    (Transform.main_run st s e).earthquake = st.earthquake ∧
    (Transform.delete_old_records st s e).earthquake = st.earthquake ∧
    (Transform.transform_earthquake st s e).earthquake = st.earthquake :=
  ⟨rfl, rfl, rfl⟩

/-- A raw row whose `time` is the spec's example epoch-millis value. -/
def c8_row : RawRow :=
  { time := 1700000000000, place := "10km ENE of Example Town", magnitude := 5,
    longitude := 10, latitude := 20, depth := 3,
    file_name := "earthquake_2026_01_16.csv" }

/-- Claim C8: the transform derives `ts` as `time / 1000` seconds since the
epoch under Postgres integer division, and `dt` as the UTC date portion of
that timestamp; at `time = 1700000000000` the derived date is day
`1700000000 / 86400` since the epoch, which is the calendar date
2023-11-14 (the date of 1700000000 seconds since the epoch, UTC). -/
theorem timestamp_derivation (r : RawRow) :
    (derive_row r).ts = Int.tdiv r.time 1000 ∧
    (derive_row r).dt = Int.fdiv ((derive_row r).ts) 86400 ∧
    (derive_row c8_row).dt = Int.fdiv 1700000000 86400 ∧
    civil_from_days (derive_row c8_row).dt = (2023, 11, 14) :=
  ⟨rfl, rfl, by decide, by decide⟩

/-- A raw row whose `place` does not contain the `"of "` marker. -/
def c2_row : RawRow :=
  { time := 1700000000000, place := "Somewhere", magnitude := 5,
    longitude := 10, latitude := 20, depth := 3,
    file_name := "earthquake_2026_01_16.csv" }

/-- Claim C2 is false on the code: when `"of "` does not occur in `place`,
`POSITION` returns the sentinel 0, so the SELECT computes
`TRIM(SUBSTRING(place FROM 3))`, which drops the first two characters
instead of preserving the value: `"Somewhere"` becomes `"mewhere"`. -/
theorem clean_place_no_marker_truncates :
    find_sub "of ".data "Somewhere".data = none ∧
    clean_place "Somewhere" = "mewhere" ∧
    (derive_row c2_row).place = "mewhere" ∧
    clean_place "Somewhere" ≠ "Somewhere" := by
  decide

end Pipeline

namespace Pipeline

/-- The batch file path of the concrete non-atomicity scenario. -/
def c1_path : String := "earthquake_2026_01_16.csv"

/-- The single raw row of the concrete non-atomicity scenario. -/
def c1_row : RawRow :=
  { time := 1700000000000, place := "10km ENE of Example Town", magnitude := 5,
    longitude := 10, latitude := 20, depth := 3, file_name := c1_path }

/-- A store already holding that batch's row and its derived fact row. -/
def c1_store : Store :=
  { earthquake := [c1_row], stage_earthquake := [derive_row c1_row] }

/-- The batch file being reloaded in the scenario. -/
def c1_file : CsvFile := { header := earthquake_header, rows := [c1_row] }

/-- Claim C1 is false on the code (the spec's own design note flags the
gap): each replace runs its delete and its insert as two separately
committed transactions.  When the insert step fails after
`delete_old_records` has already called `conn.commit()`, the store rests
at the middle committed state: the batch's (or the window's) old rows are
gone and the new rows are absent — for the staging load the raw table
drops from 1 row to 0 rows for the batch key while the file still holds
1 row, and for the window transform the fact table drops from 1 row to 0
rows for the window `[19675, 19675]` (2023-11-14). -/
theorem replace_not_atomic_on_insert_failure :
    (LoadCsv.commit_states c1_store c1_path c1_file).get? 1 =
      some { earthquake := [], stage_earthquake := [derive_row c1_row] } ∧
    raw_count_for_key c1_store c1_path = 1 ∧
    raw_count_for_key (LoadCsv.delete_old_records c1_store c1_path) c1_path = 0 ∧
    c1_file.rows.length = 1 ∧
    (Transform.commit_states c1_store 19675 19675).get? 1 =
      some { earthquake := [c1_row], stage_earthquake := [] } ∧
    fact_count_in_window c1_store 19675 19675 = 1 ∧
    fact_count_in_window (Transform.delete_old_records c1_store 19675 19675)
      19675 19675 = 0 := by
  decide

/-- Claim C3: loading the same batch file twice for the same batch key
leaves the raw table in the very state one load produces, and with exactly
the file's row count for that key.  The hypothesis that every file row
carries the key as its `file_name` is the batch invariant: the writer
stamps the batch file path into every record, and the loader deletes by
that same path. -/
theorem load_idempotent (st : Store) (key : String) (file : CsvFile)
    (hfile : ∀ r ∈ file.rows, r.file_name = key) :
    LoadCsv.main_run (LoadCsv.main_run st key file) key file =
      LoadCsv.main_run st key file ∧
    raw_count_for_key
      (LoadCsv.main_run (LoadCsv.main_run st key file) key file) key =
      file.rows.length := by
  have hnil := filter_not_key_eq_nil hfile
  have hself := filter_key_eq_self hfile
  constructor
  · simp [LoadCsv.main_run, LoadCsv.load_csv_to_postgres,
      LoadCsv.delete_old_records, List.filter_append, filter_filter_self, hnil]
  · simp [raw_count_for_key, LoadCsv.main_run, LoadCsv.load_csv_to_postgres,
      LoadCsv.delete_old_records, List.filter_append, filter_filter_self,
      filter_of_filter_not, hnil, hself]

/-- A batch row of the key `earthquake_2026_01_17.csv`. -/
def c3_row1 : RawRow :=
  { time := 1700000000000, place := "10km ENE of A", magnitude := 4,
    longitude := 1, latitude := 2, depth := 3,
    file_name := "earthquake_2026_01_17.csv" }

/-- A second batch row of the same key. -/
def c3_row2 : RawRow := { c3_row1 with time := 1700000100000, place := "5km W of B" }

/-- A pre-existing raw row of a different batch key. -/
def c3_other : RawRow := { c3_row1 with file_name := "earthquake_2026_01_16.csv" }

/-- A store holding only the other batch's row. -/
def c3_store : Store := { earthquake := [c3_other], stage_earthquake := [] }

/-- A two-row batch file for the key `earthquake_2026_01_17.csv`. -/
def c3_file : CsvFile := { header := earthquake_header, rows := [c3_row1, c3_row2] }

/-- Concrete instance of `load_idempotent`: loading the two-row batch file
twice leaves the same state as one load, with 2 rows for the key. -/
theorem load_idempotent_witness :
    (∀ r ∈ c3_file.rows, r.file_name = "earthquake_2026_01_17.csv") ∧
    (LoadCsv.main_run (LoadCsv.main_run c3_store "earthquake_2026_01_17.csv" c3_file)
        "earthquake_2026_01_17.csv" c3_file =
      LoadCsv.main_run c3_store "earthquake_2026_01_17.csv" c3_file ∧
    raw_count_for_key
      (LoadCsv.main_run (LoadCsv.main_run c3_store "earthquake_2026_01_17.csv" c3_file)
        "earthquake_2026_01_17.csv" c3_file) "earthquake_2026_01_17.csv" = 2) :=
  ⟨by decide,
   load_idempotent c3_store "earthquake_2026_01_17.csv" c3_file (by decide)⟩

/-- Claim C9: a staging load for one batch path leaves every raw row
carrying a different path untouched — the delete is scoped to
`filename = path`, and the inserted rows are exactly the batch file's,
which all carry that path; the fact table is untouched altogether. -/
theorem load_preserves_other_keys (st : Store) (key : String) (file : CsvFile)
    (hfile : ∀ r ∈ file.rows, r.file_name = key) :
    (LoadCsv.main_run st key file).earthquake.filter
        (fun r => !(r.file_name == key)) =
      st.earthquake.filter (fun r => !(r.file_name == key)) ∧
    (LoadCsv.delete_old_records st key).earthquake.filter
        (fun r => !(r.file_name == key)) =
      st.earthquake.filter (fun r => !(r.file_name == key)) ∧
    (LoadCsv.main_run st key file).stage_earthquake = st.stage_earthquake := by
  have hnil := filter_not_key_eq_nil hfile
  refine ⟨?_, ?_, rfl⟩
  · simp [LoadCsv.main_run, LoadCsv.load_csv_to_postgres,
      LoadCsv.delete_old_records, List.filter_append, filter_filter_self, hnil]
  · simp [LoadCsv.delete_old_records, filter_filter_self]

/-- Concrete instance of `load_preserves_other_keys`: loading the
2026-01-17 batch leaves the 2026-01-16 row's presence untouched. -/
theorem load_preserves_other_keys_witness :
    (∀ r ∈ c3_file.rows, r.file_name = "earthquake_2026_01_17.csv") ∧
    ((LoadCsv.main_run c3_store "earthquake_2026_01_17.csv" c3_file).earthquake.filter
        (fun r => !(r.file_name == "earthquake_2026_01_17.csv")) =
      c3_store.earthquake.filter
        (fun r => !(r.file_name == "earthquake_2026_01_17.csv")) ∧
    (LoadCsv.delete_old_records c3_store "earthquake_2026_01_17.csv").earthquake.filter
        (fun r => !(r.file_name == "earthquake_2026_01_17.csv")) =
      c3_store.earthquake.filter
        (fun r => !(r.file_name == "earthquake_2026_01_17.csv")) ∧
    (LoadCsv.main_run c3_store "earthquake_2026_01_17.csv" c3_file).stage_earthquake =
      c3_store.stage_earthquake) :=
  ⟨by decide,
   load_preserves_other_keys c3_store "earthquake_2026_01_17.csv" c3_file (by decide)⟩

/-- After one transform run, the window's fact rows are exactly the derived
image of the raw rows whose computed date lies in the window. -/
theorem transform_window_content (st : Store) (s e : Int) :
    (Transform.main_run st s e).stage_earthquake.filter
        (fun fr => between s fr.dt e) =
      (st.earthquake.filter (fun r =>
        between s (cast_ts_to_date (to_timestamp_secs r.time)) e)).map derive_row := by
  simp only [Transform.main_run, Transform.transform_earthquake,
    Transform.delete_old_records, List.filter_append]
  rw [filter_of_filter_not, List.nil_append]
  rw [List.filter_eq_self]
  intro fr hfr
  simp only [List.mem_map, List.mem_filter] at hfr
  obtain ⟨r, ⟨_, hin⟩, hfr⟩ := hfr
  subst hfr
  exact hin

/-- Claim C4: one transform run leaves the window's fact row count equal to
the number of raw rows whose derived date falls in the window, and a
second run over the same window leaves that count unchanged. -/
theorem transform_windowed_replace (st : Store) (s e : Int) :
    fact_count_in_window (Transform.main_run st s e) s e =
      raw_count_in_window st s e ∧
    fact_count_in_window
        (Transform.main_run (Transform.main_run st s e) s e) s e =
      fact_count_in_window (Transform.main_run st s e) s e := by
  have h1 := transform_window_content st s e
  have h2 := transform_window_content (Transform.main_run st s e) s e
  have hraw : (Transform.main_run st s e).earthquake = st.earthquake := rfl
  constructor
  · simp [fact_count_in_window, raw_count_in_window, h1]
  · simp [fact_count_in_window, raw_count_in_window, h1, h2, hraw]

end Pipeline

namespace Pipeline

/-- Claim C7: when `"of "` occurs in `place` — first occurrence at 0-based
index `i` — the derived place is the substring of `place` starting 3
characters after that occurrence, trimmed of surrounding spaces
(`POSITION` returns `i + 1`, so the SELECT takes
`SUBSTRING(place FROM i + 4) = drop (i + 3)` and trims it). -/
theorem clean_place_after_marker (r : RawRow) (i : Nat)
    (h : find_sub "of ".data r.place.data = some i) :
    (derive_row r).place = String.mk (trim (r.place.data.drop (i + 3))) := by
  show clean_place r.place = _
  simp only [clean_place, position, substring_from, h]
  have harith : i + 1 + 3 - 1 = i + 3 := by omega
  rw [harith]

/-- A raw row with the spec's example place value. -/
def c7_row : RawRow :=
  { time := 1700000000000, place := "10km ENE of Example Town", magnitude := 5,
    longitude := 10, latitude := 20, depth := 3,
    file_name := "earthquake_2026_01_16.csv" }

/-- Concrete instance of `clean_place_after_marker`: in
`"10km ENE of Example Town"` the marker first occurs at index 9, and the
derived place is `"Example Town"`. -/
theorem clean_place_after_marker_witness :
    find_sub "of ".data c7_row.place.data = some 9 ∧
    (derive_row c7_row).place = "Example Town" := by
  refine ⟨by decide, ?_⟩
  rw [clean_place_after_marker c7_row 9 (by decide)]
  decide

/-- Claim C5 is false as stated: for zero features the writer does not
produce the standard header row — `pd.DataFrame([])` has no columns, so
the written file's header line is blank, not
`time,place,magnitude,longitude,latitude,depth,file_name`. -/
theorem empty_feed_file_has_no_header_row :
    process_earthquake_data 200 [] "earthquake_2026_01_16.csv" =
      .ok (.fileWritten { header := [], rows := [] }) ∧
    (df_to_csv []).header ≠ earthquake_header :=
  ⟨rfl, by decide⟩

/-- Claim C5 amended: a feed response with zero features still yields a
batch file with zero data rows — though its header line is blank rather
than the standard header row — and loading that file downstream inserts
zero rows into the raw table, leaving the store unchanged, with no
error. -/
theorem empty_feed_loads_zero_rows (st : Store) (filename : String) :
    process_earthquake_data 200 [] filename = .ok (.fileWritten (df_to_csv [])) ∧
    (df_to_csv []).rows = [] ∧
    (df_to_csv []).header = [] ∧
    LoadCsv.load_csv_to_postgres st (df_to_csv []) = st := by
  refine ⟨rfl, rfl, rfl, ?_⟩
  simp [LoadCsv.load_csv_to_postgres, df_to_csv]

end Pipeline

namespace Pipeline

/-- Claim C6 is false as stated: on a non-success HTTP status the fetch
does not fail — `process_earthquake_data` prints the failure message and
returns normally, so the caller observes a normal return rather than a
`FeedUnavailable` error. -/
theorem non_success_status_returns_without_error :
    process_earthquake_data 500 [] "earthquake_2026_01_16.csv" =
      .ok (.printedFailure 500) := rfl

/-- Claim C6 amended: a non-success status makes the fetch print the
failure and return normally without writing a file (it does not raise),
while a feature missing `mag` raises an unhandled `KeyError` and a feature
with fewer than 3 coordinate values raises an unhandled `IndexError`, both
of which propagate to the caller — the parse half of the claim holds, the
status half does not. -/
theorem fetch_error_surfacing (status : Nat) (features : List Feature)
    (filename : String) (fmag fcoord : Feature) (t1 t2 m : Int) (p1 p2 : String)
    (hstatus : status ≠ 200)
    (hm1 : fmag.properties.time = some t1) (hm2 : fmag.properties.place = some p1)
    (hm3 : fmag.properties.mag = none)
    (hc1 : fcoord.properties.time = some t2) (hc2 : fcoord.properties.place = some p2)
    (hc3 : fcoord.properties.mag = some m)
    (hc4 : fcoord.geometry.coordinates.length < 3) :
    process_earthquake_data status features filename = .ok (.printedFailure status) ∧
    process_earthquake_data 200 [fmag] filename = .error "KeyError: mag" ∧
    process_earthquake_data 200 [fcoord] filename =
      .error "IndexError: list index out of range" := by
  refine ⟨?_, ?_, ?_⟩
  · have h : (status == 200) = false := by simpa using hstatus
    simp only [process_earthquake_data, h]
    rfl
  · obtain ⟨⟨ft, fp, fm⟩, fg⟩ := fmag
    simp only at hm1 hm2 hm3
    subst hm1; subst hm2; subst hm3
    rfl
  · obtain ⟨⟨gt, gp, gm⟩, ⟨gc⟩⟩ := fcoord
    simp only at hc1 hc2 hc3 hc4
    subst hc1; subst hc2; subst hc3
    rcases gc with _ | ⟨a, _ | ⟨b, _ | ⟨c, rest⟩⟩⟩
    · rfl
    · rfl
    · rfl
    · exfalso
      simp at hc4
      omega

/-- A feed feature whose `properties` lack the `mag` key. -/
def c6_missing_mag : Feature :=
  { properties := { time := some 1700000000000, place := some "10km ENE of A",
                    mag := none },
    geometry := { coordinates := [1, 2, 3] } }

/-- A feed feature with only 2 coordinate values. -/
def c6_short_coords : Feature :=
  { properties := { time := some 1700000000000, place := some "10km ENE of A",
                    mag := some 5 },
    geometry := { coordinates := [1, 2] } }

/-- Concrete instance of `fetch_error_surfacing`: status 500 returns
normally, a missing `mag` raises `KeyError`, 2 coordinates raise
`IndexError`. -/
theorem fetch_error_surfacing_witness :
    (500 : Nat) ≠ 200 ∧
    c6_missing_mag.properties.mag = none ∧
    c6_short_coords.geometry.coordinates.length < 3 ∧
    (process_earthquake_data 500 [] "earthquake_2026_01_17.csv" =
       .ok (.printedFailure 500) ∧
     process_earthquake_data 200 [c6_missing_mag] "earthquake_2026_01_17.csv" =
       .error "KeyError: mag" ∧
     process_earthquake_data 200 [c6_short_coords] "earthquake_2026_01_17.csv" =
       .error "IndexError: list index out of range") :=
  ⟨by decide, by decide, by decide,
   fetch_error_surfacing 500 [] "earthquake_2026_01_17.csv" c6_missing_mag
     c6_short_coords 1700000000000 1700000000000 5 "10km ENE of A" "10km ENE of A"
     (by decide) rfl rfl rfl rfl rfl rfl (by decide)⟩

end Pipeline
